import Mathlib

/-!
Verification development for the gateway_RTU repository.

Shallow embedding of the three core components:
* the alarm / safety-interlock engine (`src/gateway/alarm/alarm_play/alarm_logic.py`),
* the windowed threshold classifier (`src/gateway/sensor/threshold_analyzer.py`),
* the minimal Modbus RTU client (`src/gateway/sensor/vibration_monitor_1.py`).

Python ints are modelled as `Int` (register values, timestamps) or `Nat`
(wire bytes, counts); Python floats are modelled as `Rat`.  `time.time()` is
modelled by an explicit `now` parameter passed to each evaluation; the
module-level mutable globals of `alarm_logic.py` are modelled by an explicit
`AlarmMemory` record threaded through the evaluation function.  Python dicts
of register writes are modelled as association lists in insertion order.
-/

set_option maxRecDepth 8000

namespace GatewayRTU

/-! ### Register write sets (Python `Dict[int, int]` in insertion order) -/

/-- Lookup of a key in an association list (Python `d.get(k)` / `k in d`). -/
def regLookup : List (Int × Int) → Int → Option Int
  | [], _ => none
  | (k₀, v₀) :: rest, k => if k₀ = k then some v₀ else regLookup rest k

/-- Python dict assignment `d[k] = v`: replace the entry in place if the key
exists, otherwise append a fresh entry at the end. -/
def setReg : List (Int × Int) → Int → Int → List (Int × Int)
  | [], k, v => [(k, v)]
  | (k₀, v₀) :: rest, k, v =>
      if k₀ = k then (k, v) :: rest else (k₀, v₀) :: setReg rest k v

/-- Python dict deletion `del d[k]` (keys are unique in every map we build,
so removing every occurrence is equivalent). -/
def delReg (rs : List (Int × Int)) (k : Int) : List (Int × Int) :=
  rs.filter (fun p => decide (p.1 ≠ k))

theorem regLookup_setReg_self (rs : List (Int × Int)) (k v : Int) :
    regLookup (setReg rs k v) k = some v := by
  induction rs with
  | nil => simp [setReg, regLookup]
  | cons hd tl ih =>
      by_cases h : hd.1 = k
      · simp [setReg, regLookup, h]
      · simpa [setReg, regLookup, h] using ih

theorem regLookup_setReg_ne (rs : List (Int × Int)) (k v k' : Int) (h : k' ≠ k) :
    regLookup (setReg rs k v) k' = regLookup rs k' := by
  have h' : ¬ (k = k') := fun hh => h hh.symm
  induction rs with
  | nil => simp [setReg, regLookup, h']
  | cons hd tl ih =>
      by_cases hk : hd.1 = k
      · have hk' : ¬ hd.1 = k' := by rw [hk]; exact h'
        simp [setReg, regLookup, hk, hk', h']
      · by_cases hk' : hd.1 = k'
        · simp [setReg, regLookup, hk, hk', h, h']
        · simp [setReg, regLookup, hk, hk', ih]

theorem regLookup_delReg_self (rs : List (Int × Int)) (k : Int) :
    regLookup (delReg rs k) k = none := by
  induction rs with
  | nil => simp [delReg, regLookup]
  | cons hd tl ih =>
      by_cases h : hd.1 = k
      · simpa [delReg, List.filter_cons, h, regLookup] using ih
      · simpa [delReg, List.filter_cons, h, regLookup] using ih

theorem regLookup_delReg_ne (rs : List (Int × Int)) (k k' : Int) (h : k' ≠ k) :
    regLookup (delReg rs k) k' = regLookup rs k' := by
  induction rs with
  | nil => simp [delReg, regLookup]
  | cons hd tl ih =>
      by_cases hk : hd.1 = k
      · have hk' : ¬ hd.1 = k' := by rw [hk]; exact fun hh => h hh.symm
        have h2 : ¬ k = k' := fun hh => h hh.symm
        simpa [delReg, List.filter_cons, hk, regLookup, hk', h, h2] using ih
      · by_cases hk' : hd.1 = k'
        · simp [delReg, List.filter_cons, hk, regLookup, hk', ih, h]
        · simpa [delReg, List.filter_cons, hk, regLookup, hk', h] using ih

/-! ### Alarm engine data model (`alarm_logic.py`) -/

/-- `SensorState` dataclass: per-location fault levels plus electrical-phase
and load-position flags. -/
structure SensorState where
  belt_level : Int := 0
  mid_bearing_level : Int := 0
  tail_bearing_level : Int := 0
  horsehead_level : Int := 0
  crank_left_level : Int := 0
  crank_right_level : Int := 0
  line_level : Int := 0
  elec_phase_a_ok : Bool := true
  elec_phase_b_ok : Bool := true
  elec_phase_c_ok : Bool := true
  loadpos_ok : Bool := true
  deriving DecidableEq, Repr

/-- `_any_sensor_reach_level`: any of the six vibration / belt locations at
or above `level` (the `line` location is deliberately not in this list). -/
def anySensorReachLevel (s : SensorState) (level : Int) : Bool :=
  decide (level ≤ s.crank_left_level) || decide (level ≤ s.crank_right_level) ||
  decide (level ≤ s.tail_bearing_level) || decide (level ≤ s.mid_bearing_level) ||
  decide (level ≤ s.horsehead_level) || decide (level ≤ s.belt_level)

/-- `_any_vibration_reach_level`: the four pure vibration bearings. -/
def anyVibrationReachLevel (s : SensorState) (level : Int) : Bool :=
  decide (level ≤ s.crank_left_level) || decide (level ≤ s.crank_right_level) ||
  decide (level ≤ s.tail_bearing_level) || decide (level ≤ s.mid_bearing_level)

/-- `_electrical_missing_count`: number of failed electrical phases. -/
def electricalMissingCount (s : SensorState) : Int :=
  (if s.elec_phase_a_ok then 0 else 1) + (if s.elec_phase_b_ok then 0 else 1) +
  (if s.elec_phase_c_ok then 0 else 1)

/-- `_electrical_all_ok`. -/
def electricalAllOk (s : SensorState) : Bool :=
  decide (electricalMissingCount s = 0)

/-- `_electrical_missing_at_least_one`. -/
def electricalMissingAtLeastOne (s : SensorState) : Bool :=
  decide (1 ≤ electricalMissingCount s)

/-- `_loadpos_abnormal`. -/
def loadposAbnormal (s : SensorState) : Bool := !s.loadpos_ok

/-- `_loadpos_normal`. -/
def loadposNormal (s : SensorState) : Bool := s.loadpos_ok

/-- `_clamp(value, max_val) = max(0, min(value, max_val))`. -/
def clamp (value maxVal : Int) : Int := max 0 (min value maxVal)

/-- The module-level mutable globals of `alarm_logic.py`:
`_g_101_trigger_start`, `_g_101_current`, `_g_101_changed_at`,
`_g_43501_latched`. -/
structure AlarmMemory where
  trigger_start : Option Int := none
  g101_current : Option Int := none
  g101_changed_at : Option Int := none
  g43501_latched : Option Int := none
  deriving DecidableEq, Repr

/-- Step 0 of `build_rtu_registers`: sync the remembered 101 value with the
freshly observed one; a change records the change time, and an observed
run-code 81 clears the level-3 trigger timer. -/
def syncControl (m : AlarmMemory) (obs : Option Int) (now : Int) : AlarmMemory :=
  match obs with
  | none => m
  | some v =>
      if m.g101_current = some v then m
      else { m with
              g101_current := some v
              g101_changed_at := some now
              trigger_start := if v = 81 then none else m.trigger_start }

/-- `_update_43501_latched`: latch 43501 to 1 (resp. 0) once 101 has held 82
(resp. 81) for at least 60 seconds since its last change; otherwise keep the
previous latched value. -/
def updateLatch43501 (m : AlarmMemory) (now : Int) : AlarmMemory :=
  if m.g101_current = some 81 ∨ m.g101_current = some 82 then
    match m.g101_changed_at with
    | none => m
    | some t =>
        if 60 ≤ now - t then
          if m.g101_current = some 82 then { m with g43501_latched := some 1 }
          else if m.g101_current = some 81 then { m with g43501_latched := some 0 }
          else m
        else m
  else m

/-- `electrical_level = 0 if missing_count <= 0 else (1 if missing_count == 1 else 2)`. -/
def electricalLevel (s : SensorState) : Int :=
  if electricalMissingCount s ≤ 0 then 0
  else if electricalMissingCount s = 1 then 1 else 2

/-- `loadpos_level = 1 if _loadpos_abnormal(state) else 0`. -/
def loadposLevel (s : SensorState) : Int :=
  if loadposAbnormal s then 1 else 0

/-- `overall_alarm_level = max(0, belt, mid, tail, horsehead, crank_left,
crank_right, line, electrical_level, loadpos_level)` before clamping. -/
def rawOverallLevel (s : SensorState) : Int :=
  max 0 (max s.belt_level (max s.mid_bearing_level (max s.tail_bearing_level
    (max s.horsehead_level (max s.crank_left_level (max s.crank_right_level
      (max s.line_level (max (electricalLevel s) (loadposLevel s)))))))))

/-- `overall_alarm_level` after the `> 3` clamp and the benign-cause
downgrade (a level-3 sensor with fully OK electrical supply and normal load
position caps the level at 2). -/
def overallLevel (s : SensorState) : Int :=
  let o := rawOverallLevel s
  let o := if 3 < o then 3 else o
  if anySensorReachLevel s 3 && electricalAllOk s && loadposNormal s then
    (if 3 ≤ o then 2 else o)
  else o

/-- `fault_type` selection cascade for register 3504. -/
def faultType3504 (s : SensorState) : Int :=
  if decide (3 ≤ s.belt_level) && electricalMissingAtLeastOne s then 1
  else if anyVibrationReachLevel s 3 && electricalAllOk s then 3
  else if decide (3 ≤ s.belt_level) && electricalAllOk s then 3
  else if anyVibrationReachLevel s 3 && electricalMissingAtLeastOne s then 2
  else 0

/-- Registers 3502–3520 (the unconditional status block of
`build_rtu_registers`), in Python insertion order. -/
def statusRegs (s : SensorState) : List (Int × Int) :=
  [ (3502, clamp (overallLevel s) 3)
  , (3503, 0)
  , (3504, faultType3504 s)
  , (3505, if 1 ≤ s.crank_left_level then 1 else 0)
  , (3506, if 1 ≤ s.crank_right_level then 1 else 0)
  , (3507, if 1 ≤ s.tail_bearing_level then 1 else 0)
  , (3508, if 1 ≤ s.mid_bearing_level then 1 else 0)
  , (3509, if 1 ≤ s.horsehead_level then 1 else 0)
  , (3510, if 1 ≤ s.belt_level then 1 else 0)
  , (3511, if 1 ≤ electricalMissingCount s then 1 else 0)
  , (3512, if loadposAbnormal s then 1 else 0)
  , (3513, clamp s.crank_left_level 3)
  , (3514, clamp s.crank_right_level 3)
  , (3515, clamp s.tail_bearing_level 3)
  , (3516, clamp s.mid_bearing_level 3)
  , (3517, clamp s.horsehead_level 3)
  , (3518, clamp s.belt_level 3)
  , (3519, clamp (electricalLevel s) 2)
  , (3520, if loadposAbnormal s then 1 else 0) ]

/-- Step 5 of `build_rtu_registers`: delayed write of 43501 = 0 when the
latch is 0 and 101 has held the run-code 81 for at least 60 seconds. -/
def finalize43501 (m : AlarmMemory) (now : Int) (rs : List (Int × Int)) :
    List (Int × Int) :=
  if m.g43501_latched = some 0 then
    match m.g101_current, m.g101_changed_at with
    | some 81, some t => if 60 ≤ now - t then setReg rs 43501 0 else rs
    | _, _ => rs
  else rs

/-- `build_rtu_registers(state, current_rtu_101)`: one evaluation cycle of
the alarm engine.  Returns the updated persistent memory together with the
register write set of this cycle (in Python dict insertion order). -/
def buildRtuRegisters (m : AlarmMemory) (s : SensorState) (obs : Option Int)
    (now : Int) : AlarmMemory × List (Int × Int) :=
  let m2 := updateLatch43501 (syncControl m obs now) now
  if m2.g43501_latched = some 1 then
    (m2, [(43501, 1)])
  else
    let rs := statusRegs s
    let isLevel3Alarm := (regLookup rs 3502).getD 0 = 3
    let isStoppedState := m2.g101_current = some 82
    if isLevel3Alarm then
      let tstart := m2.trigger_start.getD now
      let m3 := { m2 with trigger_start := some tstart }
      let rs := if isStoppedState then rs else setReg rs 101 82
      let rs := if 60 ≤ now - tstart then setReg rs 3501 1 else rs
      (m3, finalize43501 m2 now rs)
    else
      let m3 := { m2 with trigger_start := none }
      let rs :=
        if isStoppedState then
          let rs := setReg rs 3501 1
          if (regLookup rs 101).isSome then delReg rs 101 else rs
        else if overallLevel s < 2 then setReg rs 3501 0 else rs
      (m3, finalize43501 m2 now rs)

/-- A sequence of evaluation cycles: each input is one
`(sensor snapshot, observed 101 value, wall-clock time)` triple; the engine
memory persists across cycles and the produced write sets are collected. -/
def runCycles : AlarmMemory → List (SensorState × Option Int × Int) →
    List (List (Int × Int))
  | _, [] => []
  | m, (s, obs, now) :: rest =>
      let r := buildRtuRegisters m s obs now
      r.2 :: runCycles r.1 rest

/-! ### Threshold classifier (`threshold_analyzer.py`)

Python floats are modelled as `Rat`.  The two `collections.deque(maxlen=_)`
buffers are modelled as lists keeping the most recent elements; the
divisions `sum(buf) / len(buf)` are modelled as checked divisions that fail
(return `none`) exactly when Python would raise `ZeroDivisionError`. -/

/-- `ThresholdConfig` dataclass. -/
structure ThresholdConfig where
  level1 : Rat
  level2 : Rat
  level3 : Rat
  window_size : Nat := 50
  min_spike_count : Nat := 3
  baseline_window : Nat := 50
  baseline_tol : Rat := 1/10
  deriving DecidableEq, Repr

/-- `ThresholdResult` dataclass. -/
structure ThresholdResult where
  level : Nat
  value : Rat
  baseline : Option Rat
  deriving DecidableEq, Repr

/-- The mutable state of one `ThresholdAnalyzer` instance: the detection
window `_history`, the baseline buffer `_baseline_buf`, and `_baseline`. -/
structure AnalyzerState where
  history : List Rat := []
  baselineBuf : List Rat := []
  baseline : Option Rat := none
  deriving DecidableEq, Repr

/-- `deque(maxlen = cap).append(v)`: append and evict the oldest elements
beyond the capacity. -/
def pushBounded (cap : Nat) (buf : List Rat) (v : Rat) : List Rat :=
  let b := buf ++ [v]
  b.drop (b.length - cap)

/-- `_count_over_threshold`: how many values in the detection window are
`≥ threshold`. -/
def countOver (hist : List Rat) (threshold : Rat) : Nat :=
  (hist.filter (fun v => decide (threshold ≤ v))).length

/-- The level-selection cascade of `ThresholdAnalyzer.update`: highest of
3, 2, 1 whose spike count meets `min_spike_count`, else 0. -/
def selectLevel (cfg : ThresholdConfig) (hist : List Rat) : Nat :=
  if cfg.min_spike_count ≤ countOver hist cfg.level3 then 3
  else if cfg.min_spike_count ≤ countOver hist cfg.level2 then 2
  else if cfg.min_spike_count ≤ countOver hist cfg.level1 then 1
  else 0

/-- The threshold associated to a level index (1, 2 or 3). -/
def thresholdOf (cfg : ThresholdConfig) : Nat → Rat
  | 1 => cfg.level1
  | 2 => cfg.level2
  | 3 => cfg.level3
  | _ => 0

/-- `max(buf)` for a non-empty Python list. -/
def listMax (l : List Rat) : Rat := l.foldl max (l.headD 0)

/-- `min(buf)` for a non-empty Python list. -/
def listMin (l : List Rat) : Rat := l.foldl min (l.headD 0)

/-- `_update_baseline`: push into the baseline buffer; once the buffer
holds exactly `baseline_window` values, set the baseline to their mean.
Returns the new buffer and baseline, or `none` on `ZeroDivisionError`
(possible only for `baseline_window = 0`). -/
def updateBaseline (cfg : ThresholdConfig) (st : AnalyzerState) (v : Rat) :
    Option (List Rat × Option Rat) :=
  let buf := pushBounded cfg.baseline_window st.baselineBuf v
  if buf.length = cfg.baseline_window then
    if buf.length = 0 then none
    else some (buf, some (buf.sum / (buf.length : Rat)))
  else some (buf, st.baseline)

/-- `_is_stable`: the baseline window is stable when it is full, has a
non-zero mean, and its spread `max - min` is at most
`baseline_tol * mean`.  Returns `none` on `ZeroDivisionError` (possible
only for `baseline_window = 0`). -/
def isStable (cfg : ThresholdConfig) (buf : List Rat) : Option Bool :=
  if buf.length < cfg.baseline_window then some false
  else if buf.length = 0 then none
  else
    let baseline := buf.sum / (buf.length : Rat)
    if baseline = 0 then some false
    else some (decide (listMax buf - listMin buf ≤ cfg.baseline_tol * baseline))

/-- The spike ratio of the guard: `value / baseline if baseline != 0 else
0.0`, and 0 while the baseline is undefined. -/
def ratioOf (value : Rat) (baseline : Option Rat) : Rat :=
  match baseline with
  | none => 0
  | some b => if b ≠ 0 then value / b else 0

/-- `ThresholdAnalyzer.update`: one classification step.  Returns the
result together with the successor state, or `none` where Python raises
(only reachable with `baseline_window = 0`). -/
def analyzerUpdate (cfg : ThresholdConfig) (st : AnalyzerState) (v : Rat) :
    Option (ThresholdResult × AnalyzerState) :=
  match updateBaseline cfg st v with
  | none => none
  | some (bbuf, bl) =>
      let hist := pushBounded cfg.window_size st.history v
      let level := selectLevel cfg hist
      if 0 < level ∧ bl ≠ none then
        match isStable cfg bbuf with
        | none => none
        | some true =>
            let level' := if ratioOf v bl < 6/5 then 0 else level
            some (⟨level', v, bl⟩, ⟨hist, bbuf, bl⟩)
        | some false => some (⟨level, v, bl⟩, ⟨hist, bbuf, bl⟩)
      else some (⟨level, v, bl⟩, ⟨hist, bbuf, bl⟩)

/-! ### Modbus RTU client (`vibration_monitor_1.py`, class `ModbusRtuClient`)

Wire bytes are modelled as `Nat` values; the serial input is modelled as the
list of bytes available to be read, a short list standing for a timeout. -/

/-- One step of the CRC16 inner loop: shift right, xor with the 0xA001
polynomial when the low bit was set. -/
def crcRound (crc : Nat) : Nat :=
  if crc % 2 = 1 then (crc / 2) ^^^ 0xA001 else crc / 2

/-- Fold one byte into the CRC16 accumulator: xor then eight rounds. -/
def crcByte (crc b : Nat) : Nat := crcRound^[8] (crc ^^^ b)

/-- `ModbusRtuClient._crc16`: polynomial 0xA001, seed 0xFFFF, final mask. -/
def crc16 (data : List Nat) : Nat := (data.foldl crcByte 0xFFFF) &&& 0xFFFF

/-- The request frame written by `_send_and_recv`:
`unit_id + pdu + struct.pack('<H', crc)` (CRC16 little-endian trailer over
every preceding byte). -/
def buildFrame (unitId : Nat) (pdu : List Nat) : List Nat :=
  let body := unitId :: pdu
  let crc := crc16 body
  body ++ [crc % 256, crc / 256]

/-- CRC validation of a full frame: recompute the CRC16 over everything but
the trailing two bytes and compare with the little-endian trailer. -/
def checkFrameCrc (frame : List Nat) : Bool :=
  let body := frame.take (frame.length - 2)
  match frame.drop (frame.length - 2) with
  | [lo, hi] => crc16 body == lo + 256 * hi
  | _ => false

/-- The typed failures raised inside `_send_and_recv` (spec taxonomy:
`Timeout`, `ProtocolMismatch`, `RemoteException`, `ChecksumError`). -/
inductive MbError where
  | timeout : MbError
  | addrMismatch (expected got : Nat) : MbError
  | remoteException (func : Nat) (code : Option Nat) : MbError
  | crcMismatch : MbError
  deriving DecidableEq, Repr

/-- The receive half of `_send_and_recv`: read a 3-byte header, validate
the slave address, the exception bit, the length and the CRC, and return
`bytes([func, byte_count]) + data` on success. -/
def recvResponse (unitId : Nat) (stream : List Nat) :
    Except MbError (List Nat) :=
  match stream with
  | addr :: func :: byteCount :: rest =>
      if addr ≠ unitId then .error (.addrMismatch unitId addr)
      else if func &&& 0x80 ≠ 0 then .error (.remoteException func rest.head?)
      else
        let dataCrc := rest.take (byteCount + 2)
        if dataCrc.length < byteCount + 2 then .error .timeout
        else
          match dataCrc.drop byteCount with
          | [lo, hi] =>
              if crc16 (addr :: func :: byteCount :: dataCrc.take byteCount)
                  ≠ lo + 256 * hi then .error .crcMismatch
              else .ok (func :: byteCount :: dataCrc.take byteCount)
          | _ => .error .timeout
  | _ => .error .timeout

/-- The observable serial-port operations of `_send_and_recv`, in order. -/
inductive SerialOp where
  | resetInputBuffer : SerialOp
  | resetOutputBuffer : SerialOp
  | writeBytes (frame : List Nat) : SerialOp
  | flushDrain : SerialOp
  | readBytes (n : Nat) : SerialOp
  deriving DecidableEq, Repr

/-- Whether a serial operation is the write of the request frame. -/
def isWriteOp : SerialOp → Bool
  | .writeBytes _ => true
  | _ => false

/-- The sequence of serial-port operations performed by `_send_and_recv`
for one exchange: reset the input buffer, write the framed request, drain
the output (`flush`), read the 3-byte header, then (depending on the
response) read the exception byte or the data-plus-CRC block. -/
def exchangeOps (unitId : Nat) (pdu : List Nat) (stream : List Nat) :
    List SerialOp :=
  [.resetInputBuffer, .writeBytes (buildFrame unitId pdu), .flushDrain,
   .readBytes 3] ++
  (match stream with
   | addr :: func :: byteCount :: _ =>
       if addr ≠ unitId then []
       else if func &&& 0x80 ≠ 0 then [.readBytes 1]
       else [.readBytes (byteCount + 2)]
   | _ => [])

/-- The operations performed strictly before the request frame is written. -/
def opsBeforeSend (ops : List SerialOp) : List SerialOp :=
  ops.takeWhile (fun op => !isWriteOp op)

/-! ### Claims about the Modbus client -/

/-- C4: every frame produced by the encoder carries a little-endian CRC16
trailer (polynomial 0xA001, seed 0xFFFF) that matches the CRC recomputed
over all preceding bytes; and every response whose trailing CRC bytes
differ from the CRC recomputed over header plus data fails with
`ChecksumError` (`crcMismatch`). -/
theorem c4_crc_roundtrip (unitId : Nat) (pdu : List Nat)
    (addr func byteCount lo hi : Nat) (data : List Nat)
    (haddr : addr = unitId) (hfunc : func &&& 0x80 = 0)
    (hlen : data.length = byteCount)
    (hcrc : lo + 256 * hi ≠ crc16 (addr :: func :: byteCount :: data)) :
    checkFrameCrc (buildFrame unitId pdu) = true ∧
    recvResponse unitId (addr :: func :: byteCount :: (data ++ [lo, hi])) =
      .error .crcMismatch := by
  constructor
  · unfold checkFrameCrc buildFrame
    have hlen2 : ((unitId :: pdu) ++
        [crc16 (unitId :: pdu) % 256, crc16 (unitId :: pdu) / 256]).length - 2 =
        (unitId :: pdu).length := by
      simp
    rw [hlen2, List.take_left, List.drop_left]
    simp [Nat.mod_add_div]
  · subst haddr hlen
    have hrest : (data ++ [lo, hi]).length = data.length + 2 := by simp
    have htake : (data ++ [lo, hi]).take (data.length + 2) = data ++ [lo, hi] := by
      rw [← hrest]; exact List.take_length _
    have hcrc2 : crc16 (addr :: func :: data.length :: data) ≠ lo + 256 * hi :=
      fun hh => hcrc hh.symm
    simp [recvResponse, htake, hrest, hcrc2, hfunc, List.drop_left,
      List.take_left]

/-- C4 witness: a concrete encoder frame validates, and a concrete response
with a corrupted CRC trailer fails with `crcMismatch`. -/
theorem c4_crc_roundtrip_witness :
    checkFrameCrc (buildFrame 1 [3, 0, 0, 0, 1]) = true ∧
    recvResponse 1 (1 :: 3 :: 2 :: ([0, 5] ++ [0, 0])) = .error .crcMismatch :=
  c4_crc_roundtrip 1 [3, 0, 0, 0, 1] 1 3 2 0 0 [0, 5] rfl (by decide) rfl
    (by decide)

/-- C5: a response whose address byte differs from the requested slave id
fails with `ProtocolMismatch` (`addrMismatch`), whatever its function code
is — in particular even when the exception bit 0x80 is set, because the
address check is performed before the exception-bit check. -/
theorem c5_addr_check_precedes_exception (unitId addr func byteCount : Nat)
    (rest : List Nat) (h : addr ≠ unitId) :
    recvResponse unitId (addr :: func :: byteCount :: rest) =
      .error (.addrMismatch unitId addr) := by
  simp [recvResponse, h]

/-- C5 witness: address 2 instead of 1 with the exception bit set in the
function code still reports the address mismatch. -/
theorem c5_addr_check_precedes_exception_witness :
    recvResponse 1 (2 :: 131 :: 1 :: [0, 0, 0]) = .error (.addrMismatch 1 2) ∧
    131 &&& 0x80 ≠ 0 :=
  ⟨c5_addr_check_precedes_exception 1 2 131 1 [0, 0, 0] (by decide), by decide⟩

/-- C8 counterexample: at a concrete request, the transport does not reset
the output buffer before writing the framed request (only the input buffer
is flushed), refuting the claim that both stale buffers are flushed. -/
theorem c8_counterexample :
    ¬ SerialOp.resetOutputBuffer ∈ opsBeforeSend (exchangeOps 1 [3, 0, 0, 0, 1] []) := by
  decide

/-- C8 (amended): before writing each framed request the transport flushes
only the stale input buffer (`reset_input_buffer`); the output buffer is
never reset — after the write, `flush` drains the output — and the exchange
starts with reset-input, write, drain, then the 3-byte header read. -/
theorem c8_flush_before_send (unitId : Nat) (pdu stream : List Nat) :
    opsBeforeSend (exchangeOps unitId pdu stream) = [.resetInputBuffer] ∧
    SerialOp.resetOutputBuffer ∉ exchangeOps unitId pdu stream ∧
    (exchangeOps unitId pdu stream).take 4 =
      [.resetInputBuffer, .writeBytes (buildFrame unitId pdu), .flushDrain,
       .readBytes 3] := by
  refine ⟨?_, ?_, ?_⟩
  · simp [opsBeforeSend, exchangeOps, isWriteOp, List.takeWhile]
  · intro hmem
    rcases stream with _ | ⟨a, _ | ⟨f, _ | ⟨bc, rest⟩⟩⟩
    · simp [exchangeOps] at hmem
    · simp [exchangeOps] at hmem
    · simp [exchangeOps] at hmem
    · simp [exchangeOps] at hmem
      revert hmem
      split_ifs <;> simp
  · simp [exchangeOps]

/-! ### Claims about the threshold classifier -/

theorem pushBounded_length (cap : Nat) (buf : List Rat) (v : Rat) :
    (pushBounded cap buf v).length = min (buf.length + 1) cap := by
  simp [pushBounded]
  omega

theorem countOver_anti (hist : List Rat) (a b : Rat) (hab : a ≤ b) :
    countOver hist b ≤ countOver hist a := by
  induction hist with
  | nil => simp [countOver]
  | cons x xs ih =>
      unfold countOver at ih ⊢
      by_cases hb : b ≤ x
      · have ha : a ≤ x := le_trans hab hb
        simp [List.filter_cons, hb, ha]
        omega
      · by_cases ha : a ≤ x <;> simp [List.filter_cons, hb, ha] <;> omega

theorem selectLevel_le_three (cfg : ThresholdConfig) (hist : List Rat) :
    selectLevel cfg hist ≤ 3 := by
  unfold selectLevel
  split_ifs <;> omega

theorem selectLevel_count (cfg : ThresholdConfig) (hist : List Rat) :
    0 < selectLevel cfg hist →
    cfg.min_spike_count ≤ countOver hist (thresholdOf cfg (selectLevel cfg hist)) := by
  unfold selectLevel
  split_ifs with h3 h2 h1 <;> intro h0
  · simpa [thresholdOf] using h3
  · simpa [thresholdOf] using h2
  · simpa [thresholdOf] using h1
  · omega

theorem selectLevel_highest (cfg : ThresholdConfig) (hist : List Rat) (k : Nat)
    (hk1 : 1 ≤ k) (hk3 : k ≤ 3)
    (hcnt : cfg.min_spike_count ≤ countOver hist (thresholdOf cfg k)) :
    k ≤ selectLevel cfg hist := by
  interval_cases k <;>
    · simp only [thresholdOf] at hcnt
      unfold selectLevel
      split_ifs <;> omega

theorem selectLevel_eq_zero (cfg : ThresholdConfig) (hist : List Rat)
    (h12 : cfg.level1 ≤ cfg.level2) (h23 : cfg.level2 ≤ cfg.level3)
    (h : countOver hist cfg.level1 < cfg.min_spike_count) :
    selectLevel cfg hist = 0 := by
  have hc2 := countOver_anti hist cfg.level1 cfg.level2 h12
  have hc3 := countOver_anti hist cfg.level2 cfg.level3 h23
  unfold selectLevel
  split_ifs <;> omega

/-- C6: the level selected before the spike-ratio guard is the highest
threshold index k in \x7b3, 2, 1\x7d whose spike count in the detection buffer
meets `min_spike_count` (0 when none does); consequently, with ascending
thresholds, whenever fewer than `min_spike_count` samples of the detection
buffer are at or above `level1`, the reported level of the update is 0. -/
theorem c6_level_selection :
    (∀ (cfg : ThresholdConfig) (hist : List Rat),
        selectLevel cfg hist ≤ 3 ∧
        (0 < selectLevel cfg hist →
          cfg.min_spike_count ≤
            countOver hist (thresholdOf cfg (selectLevel cfg hist))) ∧
        (∀ k, 1 ≤ k → k ≤ 3 →
          cfg.min_spike_count ≤ countOver hist (thresholdOf cfg k) →
          k ≤ selectLevel cfg hist)) ∧
    (∀ (cfg : ThresholdConfig) (st : AnalyzerState) (v : Rat)
        (r : ThresholdResult) (st' : AnalyzerState),
        cfg.level1 ≤ cfg.level2 → cfg.level2 ≤ cfg.level3 →
        analyzerUpdate cfg st v = some (r, st') →
        countOver st'.history cfg.level1 < cfg.min_spike_count →
        r.level = 0) := by
  constructor
  · exact fun cfg hist =>
      ⟨selectLevel_le_three cfg hist, selectLevel_count cfg hist,
        fun k hk1 hk3 hcnt => selectLevel_highest cfg hist k hk1 hk3 hcnt⟩
  · intro cfg st v r st' h12 h23 hupd hcnt
    unfold analyzerUpdate at hupd
    cases hub : updateBaseline cfg st v with
    | none => rw [hub] at hupd; exact absurd hupd (by simp)
    | some p =>
        obtain ⟨bbuf, bl⟩ := p
        rw [hub] at hupd
        dsimp only at hupd
        split at hupd
        · split at hupd
          · exact absurd hupd (by simp)
          · simp only [Option.some.injEq, Prod.mk.injEq] at hupd
            obtain ⟨hr, hst⟩ := hupd
            subst hst
            subst hr
            have h0 := selectLevel_eq_zero cfg _ h12 h23 hcnt
            simp [h0]
          · simp only [Option.some.injEq, Prod.mk.injEq] at hupd
            obtain ⟨hr, hst⟩ := hupd
            subst hst
            subst hr
            exact selectLevel_eq_zero cfg _ h12 h23 hcnt
        · simp only [Option.some.injEq, Prod.mk.injEq] at hupd
          obtain ⟨hr, hst⟩ := hupd
          subst hst
          subst hr
          exact selectLevel_eq_zero cfg _ h12 h23 hcnt

/-- C6 witness: a single spike of 100 into an empty analyzer with
`min_spike_count = 2` reports level 0. -/
theorem c6_level_selection_witness :
    (⟨0, 100, none⟩ : ThresholdResult).level = 0 :=
  c6_level_selection.2
    ⟨10, 20, 30, 5, 2, 3, 1⟩ ⟨[], [], none⟩ 100
    ⟨0, 100, none⟩ ⟨[100], [100], none⟩
    (by decide) (by decide) (by decide) (by decide)

/-- C7: on an update where a non-zero level was selected, the returned
level is 0 exactly when the (post-update) baseline is defined, the baseline
window is stable, and the spike ratio (0 for a zero baseline) is below 6/5;
otherwise the selected level is returned unchanged. -/
theorem c7_spike_ratio_guard (cfg : ThresholdConfig) (st : AnalyzerState)
    (v : Rat) (r : ThresholdResult) (st' : AnalyzerState)
    (hupd : analyzerUpdate cfg st v = some (r, st'))
    (hsel : 0 < selectLevel cfg st'.history) :
    r.level =
      if st'.baseline.isSome = true ∧
          isStable cfg st'.baselineBuf = some true ∧
          ratioOf v st'.baseline < 6/5 then 0
      else selectLevel cfg st'.history := by
  unfold analyzerUpdate at hupd
  cases hub : updateBaseline cfg st v with
  | none => rw [hub] at hupd; exact absurd hupd (by simp)
  | some p =>
      obtain ⟨bbuf, bl⟩ := p
      rw [hub] at hupd
      dsimp only at hupd
      split at hupd
      case isTrue hcond =>
        split at hupd
        · exact absurd hupd (by simp)
        case _ hstableEq =>
          simp only [Option.some.injEq, Prod.mk.injEq] at hupd
          obtain ⟨hr, hst⟩ := hupd
          subst hst
          subst hr
          have hblsome : bl.isSome = true := by
            rcases hcond with ⟨-, hne⟩
            cases bl with
            | none => exact absurd rfl hne
            | some b => rfl
          by_cases hratio : ratioOf v bl < 6/5 <;>
            simp [hblsome, hstableEq, hratio]
        case _ hstableEq =>
          simp only [Option.some.injEq, Prod.mk.injEq] at hupd
          obtain ⟨hr, hst⟩ := hupd
          subst hst
          subst hr
          simp [hstableEq]
      case isFalse hcond =>
        simp only [Option.some.injEq, Prod.mk.injEq] at hupd
        obtain ⟨hr, hst⟩ := hupd
        subst hst
        subst hr
        have hbl : bl = none := by
          by_contra hne
          exact hcond ⟨hsel, hne⟩
        subst hbl
        simp

/-- C7 witness: with an undefined baseline the guard leaves the selected
level 3 unchanged. -/
theorem c7_spike_ratio_guard_witness :
    (⟨3, 100, none⟩ : ThresholdResult).level =
      if (⟨[100], [100], none⟩ : AnalyzerState).baseline.isSome = true ∧
          isStable ⟨10, 20, 30, 5, 1, 3, 1⟩
            (⟨[100], [100], none⟩ : AnalyzerState).baselineBuf = some true ∧
          ratioOf 100 (⟨[100], [100], none⟩ : AnalyzerState).baseline < 6/5
      then 0
      else selectLevel ⟨10, 20, 30, 5, 1, 3, 1⟩
        (⟨[100], [100], none⟩ : AnalyzerState).history :=
  c7_spike_ratio_guard ⟨10, 20, 30, 5, 1, 3, 1⟩ ⟨[], [], none⟩ 100
    ⟨3, 100, none⟩ ⟨[100], [100], none⟩ (by decide) (by decide)

theorem isStable_ne_none (cfg : ThresholdConfig) (buf : List Rat)
    (hbw : 1 ≤ cfg.baseline_window) : isStable cfg buf ≠ none := by
  unfold isStable
  dsimp only
  by_cases h1 : buf.length < cfg.baseline_window
  · simp [h1]
  · by_cases h2 : buf.length = 0
    · exfalso; omega
    · rw [if_neg h1, if_neg h2]
      split_ifs <;> simp

/-- C10: with a positive baseline window (the config invariant), the
classifier update is total — no division is unguarded — and always returns
a level among 0, 1, 2, 3. -/
theorem c10_update_total (cfg : ThresholdConfig) (st : AnalyzerState)
    (v : Rat) (hbw : 1 ≤ cfg.baseline_window) :
    ∃ r st', analyzerUpdate cfg st v = some (r, st') ∧ r.level ≤ 3 := by
  have hub' : updateBaseline cfg st v ≠ none := by
    unfold updateBaseline
    dsimp only
    split_ifs with h1 h2
    · exfalso
      have hl := pushBounded_length cfg.baseline_window st.baselineBuf v
      omega
    · simp
    · simp
  obtain ⟨p, hub⟩ := Option.ne_none_iff_exists'.mp hub'
  obtain ⟨bbuf, bl⟩ := p
  unfold analyzerUpdate
  rw [hub]
  dsimp only
  by_cases hcond :
      0 < selectLevel cfg (pushBounded cfg.window_size st.history v) ∧ bl ≠ none
  · rw [if_pos hcond]
    cases hst : isStable cfg bbuf with
    | none => exact absurd hst (isStable_ne_none cfg bbuf hbw)
    | some b =>
        cases b
        · exact ⟨_, _, rfl, selectLevel_le_three _ _⟩
        · refine ⟨_, _, rfl, ?_⟩
          by_cases hratio : ratioOf v bl < 6/5 <;>
            simp [hratio, selectLevel_le_three]
  · rw [if_neg hcond]
    exact ⟨_, _, rfl, selectLevel_le_three _ _⟩

/-- C10 witness: a concrete update succeeds and stays in range. -/
theorem c10_update_total_witness :
    ∃ r st',
      analyzerUpdate ⟨10, 20, 30, 5, 2, 3, 1⟩ ⟨[], [], none⟩ 100 =
        some (r, st') ∧ r.level ≤ 3 :=
  c10_update_total ⟨10, 20, 30, 5, 2, 3, 1⟩ ⟨[], [], none⟩ 100 (by decide)

/-! ### Claims about the alarm engine -/

theorem statusRegs_lookup_101 (s : SensorState) :
    regLookup (statusRegs s) 101 = none := by
  norm_num [statusRegs, regLookup]

theorem statusRegs_lookup_3501 (s : SensorState) :
    regLookup (statusRegs s) 3501 = none := by
  norm_num [statusRegs, regLookup]

theorem statusRegs_lookup_3502 (s : SensorState) :
    regLookup (statusRegs s) 3502 = some (clamp (overallLevel s) 3) := by
  norm_num [statusRegs, regLookup]

theorem updateLatch_g101_current (m : AlarmMemory) (now : Int) :
    (updateLatch43501 m now).g101_current = m.g101_current := by
  obtain ⟨ts, cur, ch, la⟩ := m
  unfold updateLatch43501
  cases ch <;> dsimp only <;> split_ifs <;> rfl

theorem updateLatch_g101_changed_at (m : AlarmMemory) (now : Int) :
    (updateLatch43501 m now).g101_changed_at = m.g101_changed_at := by
  obtain ⟨ts, cur, ch, la⟩ := m
  unfold updateLatch43501
  cases ch <;> dsimp only <;> split_ifs <;> rfl

theorem regLookup_finalize43501_ne (m : AlarmMemory) (now : Int)
    (rs : List (Int × Int)) (k : Int) (hk : k ≠ 43501) :
    regLookup (finalize43501 m now rs) k = regLookup rs k := by
  unfold finalize43501
  split_ifs with h
  · split
    · split_ifs with ht
      · exact regLookup_setReg_ne _ _ _ _ hk
      · rfl
    · rfl
  · rfl

theorem anySensorReachLevel_three (s : SensorState)
    (hany : anySensorReachLevel s 3 = true) : 3 ≤ rawOverallLevel s := by
  simp only [anySensorReachLevel, Bool.or_eq_true, decide_eq_true_eq] at hany
  unfold rawOverallLevel
  rcases hany with ((((h | h) | h) | h) | h) | h <;> omega

theorem electricalLevel_of_allOk (s : SensorState)
    (helec : electricalAllOk s = true) : electricalLevel s = 0 := by
  simp only [electricalAllOk, decide_eq_true_eq] at helec
  simp [electricalLevel, helec]

theorem overallLevel_downgrade (s : SensorState)
    (hany : anySensorReachLevel s 3 = true)
    (helec : electricalAllOk s = true)
    (hload : loadposNormal s = true) : overallLevel s = 2 := by
  have hraw := anySensorReachLevel_three s hany
  unfold overallLevel
  rw [hany, helec, hload]
  simp only [Bool.and_self, Bool.and_true, if_true]
  split_ifs <;> omega

theorem overallLevel_line_only (s : SensorState)
    (hline : s.line_level = 3)
    (hcl : s.crank_left_level < 3) (hcr : s.crank_right_level < 3)
    (htb : s.tail_bearing_level < 3) (hmb : s.mid_bearing_level < 3)
    (hhh : s.horsehead_level < 3) (hbe : s.belt_level < 3)
    (helec : electricalAllOk s = true)
    (hload : loadposNormal s = true) : overallLevel s = 3 := by
  have hany : anySensorReachLevel s 3 = false := by
    simp only [anySensorReachLevel, Bool.or_eq_false_iff, decide_eq_false_iff_not]
    omega
  have he0 := electricalLevel_of_allOk s helec
  have hl0 : loadposLevel s = 0 := by
    simp only [loadposNormal] at hload
    simp [loadposLevel, loadposAbnormal, hload]
  have hraw : rawOverallLevel s = 3 := by
    unfold rawOverallLevel
    rw [he0, hl0]
    omega
  unfold overallLevel
  rw [hany, hraw]
  norm_num

/-- Value of register 3502 in every cycle that is not short-circuited by
the 43501 latch: the clamped overall alarm level. -/
theorem build_lookup_3502 (m : AlarmMemory) (s : SensorState)
    (obs : Option Int) (now : Int)
    (hlatch : (updateLatch43501 (syncControl m obs now) now).g43501_latched ≠ some 1) :
    regLookup (buildRtuRegisters m s obs now).2 3502 =
      some (clamp (overallLevel s) 3) := by
  unfold buildRtuRegisters
  dsimp only
  rw [if_neg hlatch]
  split_ifs with hL3 hstop h60 <;>
    simp_all [regLookup_finalize43501_ne, regLookup_setReg_ne,
      regLookup_setReg_self, regLookup_delReg_ne, statusRegs_lookup_3502]

/-- In every cycle — latch short-circuit included — the write set never
maps the control register 101 to the run-code 81 (its only possible value
there is the stop-code 82). -/
theorem build_lookup_101_ne_run (m : AlarmMemory) (s : SensorState)
    (obs : Option Int) (now : Int) :
    regLookup (buildRtuRegisters m s obs now).2 101 ≠ some 81 := by
  unfold buildRtuRegisters
  dsimp only
  split_ifs <;>
    simp_all [regLookup, regLookup_finalize43501_ne, regLookup_setReg_ne,
      regLookup_setReg_self, regLookup_delReg_self, statusRegs_lookup_101]

/-- C1 (amended): across every sequence of evaluation cycles the engine
never writes the run-code 81 to control register 101; and in any cycle in
which the remembered control value is the stop-code 82, the overall level
is below 3, and the 43501 latch does not short-circuit the cycle, the
write set maps 3501 to 1 and contains no entry for 101.  (The original
claim omitted the latch condition: once 82 has been held for 60 seconds
the cycle short-circuits to the single write 43501 = 1 and 3501 is not
written — see the counterexample.) -/
theorem c1_stop_latch :
    (∀ (m : AlarmMemory) (inputs : List (SensorState × Option Int × Int))
        (out : List (Int × Int)), out ∈ runCycles m inputs →
        regLookup out 101 ≠ some 81) ∧
    (∀ (m : AlarmMemory) (s : SensorState) (obs : Option Int) (now : Int),
        (updateLatch43501 (syncControl m obs now) now).g101_current = some 82 →
        (updateLatch43501 (syncControl m obs now) now).g43501_latched ≠ some 1 →
        overallLevel s < 3 →
        regLookup (buildRtuRegisters m s obs now).2 3501 = some 1 ∧
        regLookup (buildRtuRegisters m s obs now).2 101 = none) := by
  constructor
  · intro m inputs
    induction inputs generalizing m with
    | nil => intro out h; simp [runCycles] at h
    | cons p rest ih =>
        intro out hmem
        obtain ⟨s, obs, now⟩ := p
        simp only [runCycles, List.mem_cons] at hmem
        rcases hmem with h | h
        · rw [h]; exact build_lookup_101_ne_run m s obs now
        · exact ih _ _ h
  · intro m s obs now hstop hlatch hlow
    unfold buildRtuRegisters
    dsimp only
    rw [if_neg hlatch]
    have hL3 : ¬ ((regLookup (statusRegs s) 3502).getD 0 = 3) := by
      rw [statusRegs_lookup_3502]
      simp only [Option.getD_some]
      unfold clamp
      omega
    rw [if_neg hL3, if_pos hstop]
    have h101 : regLookup (setReg (statusRegs s) 3501 1) 101 = none := by
      rw [regLookup_setReg_ne _ _ _ _ (by norm_num), statusRegs_lookup_101]
    rw [h101]
    simp only [Option.isSome_none, Bool.false_eq_true, if_false]
    constructor
    · rw [regLookup_finalize43501_ne _ _ _ _ (by norm_num), regLookup_setReg_self]
    · rw [regLookup_finalize43501_ne _ _ _ _ (by norm_num), h101]

/-- C1 witness: remembered 101 = 82 for only 10 seconds (latch not yet 1),
sensors all normal — the cycle writes 3501 = 1 and omits 101. -/
theorem c1_stop_latch_witness :
    regLookup (buildRtuRegisters ⟨none, some 82, some 10, none⟩
      ⟨0, 0, 0, 0, 0, 0, 0, true, true, true, true⟩ none 20).2 3501 = some 1 ∧
    regLookup (buildRtuRegisters ⟨none, some 82, some 10, none⟩
      ⟨0, 0, 0, 0, 0, 0, 0, true, true, true, true⟩ none 20).2 101 = none :=
  c1_stop_latch.2 ⟨none, some 82, some 10, none⟩
    ⟨0, 0, 0, 0, 0, 0, 0, true, true, true, true⟩ none 20
    (by decide) (by decide) (by decide)

/-- C1 counterexample: with the stop-code 82 remembered for 100 seconds
and all sensors normal (overall level 0 < 3), the cycle is short-circuited
by the 43501 latch and the write set does not map 3501 to 1, refuting the
claim as stated. -/
theorem c1_counterexample :
    (updateLatch43501 (syncControl ⟨none, some 82, some 0, none⟩ none 100)
        100).g101_current = some 82 ∧
    overallLevel ⟨0, 0, 0, 0, 0, 0, 0, true, true, true, true⟩ < 3 ∧
    regLookup (buildRtuRegisters ⟨none, some 82, some 0, none⟩
      ⟨0, 0, 0, 0, 0, 0, 0, true, true, true, true⟩ none 100).2 3501 ≠ some 1 := by
  decide

/-- C2: whenever the remembered control register has held the stop-code 82
for at least 60 seconds since its last change, the latch evaluates to 1 and
the cycle returns exactly the singleton write set 43501 = 1 — no other
register is written. -/
theorem c2_latch_short_circuit (m : AlarmMemory) (s : SensorState)
    (obs : Option Int) (now t : Int)
    (hcur : (updateLatch43501 (syncControl m obs now) now).g101_current = some 82)
    (hch : (updateLatch43501 (syncControl m obs now) now).g101_changed_at = some t)
    (h60 : 60 ≤ now - t) :
    (buildRtuRegisters m s obs now).2 = [(43501, 1)] := by
  have hcur' : (syncControl m obs now).g101_current = some 82 := by
    rw [← updateLatch_g101_current (syncControl m obs now) now]; exact hcur
  have hch' : (syncControl m obs now).g101_changed_at = some t := by
    rw [← updateLatch_g101_changed_at (syncControl m obs now) now]; exact hch
  have hlatch : (updateLatch43501 (syncControl m obs now) now).g43501_latched
      = some 1 := by
    unfold updateLatch43501
    rw [if_pos (Or.inr hcur'), hch']
    dsimp only
    rw [if_pos h60, if_pos hcur']
  unfold buildRtuRegisters
  dsimp only
  rw [if_pos hlatch]

/-- C2 witness: stop-code remembered for 100 seconds short-circuits to the
singleton write set. -/
theorem c2_latch_short_circuit_witness :
    (buildRtuRegisters ⟨none, some 82, some 0, none⟩
      ⟨0, 0, 0, 0, 0, 0, 0, true, true, true, true⟩ none 100).2 = [(43501, 1)] :=
  c2_latch_short_circuit ⟨none, some 82, some 0, none⟩
    ⟨0, 0, 0, 0, 0, 0, 0, true, true, true, true⟩ none 100 0
    (by decide) (by decide) (by decide)

/-- C3: whenever some vibration/belt location is at level 3 or more while
all three electrical phases are OK and the load position is normal, the
overall level is capped at exactly 2 and register 3502 is written with 2
(in any cycle that reaches the status-register logic, i.e. that is not
short-circuited by the 43501 latch). -/
theorem c3_benign_downgrade (m : AlarmMemory) (s : SensorState)
    (obs : Option Int) (now : Int)
    (hlatch : (updateLatch43501 (syncControl m obs now) now).g43501_latched ≠ some 1)
    (hany : anySensorReachLevel s 3 = true)
    (helec : electricalAllOk s = true)
    (hload : loadposNormal s = true) :
    overallLevel s = 2 ∧
    regLookup (buildRtuRegisters m s obs now).2 3502 = some 2 := by
  have hov := overallLevel_downgrade s hany helec hload
  refine ⟨hov, ?_⟩
  rw [build_lookup_3502 m s obs now hlatch, hov]
  norm_num [clamp]

/-- C3 witness: crank-left at level 3, everything else clean. -/
theorem c3_benign_downgrade_witness :
    overallLevel ⟨0, 0, 0, 0, 3, 0, 0, true, true, true, true⟩ = 2 ∧
    regLookup (buildRtuRegisters ⟨none, none, none, none⟩
      ⟨0, 0, 0, 0, 3, 0, 0, true, true, true, true⟩ none 0).2 3502 = some 2 :=
  c3_benign_downgrade ⟨none, none, none, none⟩
    ⟨0, 0, 0, 0, 3, 0, 0, true, true, true, true⟩ none 0
    (by decide) (by decide) (by decide) (by decide)

/-- C9: the benign-cause downgrade tests exactly the six locations
crank-left, crank-right, tail-bearing, mid-bearing, horsehead and belt:
with clean electrical supply and normal load position, a level 3 on belt
or on horsehead forces 3502 = 2, while a level 3 on the line location
alone (all six tested locations below 3) is never downgraded and yields
3502 = 3. -/
theorem c9_downgrade_sensor_set (m : AlarmMemory) (s : SensorState)
    (obs : Option Int) (now : Int)
    (hlatch : (updateLatch43501 (syncControl m obs now) now).g43501_latched ≠ some 1)
    (helec : electricalAllOk s = true)
    (hload : loadposNormal s = true) :
    (3 ≤ s.belt_level →
      regLookup (buildRtuRegisters m s obs now).2 3502 = some 2) ∧
    (3 ≤ s.horsehead_level →
      regLookup (buildRtuRegisters m s obs now).2 3502 = some 2) ∧
    (s.line_level = 3 → s.crank_left_level < 3 → s.crank_right_level < 3 →
      s.tail_bearing_level < 3 → s.mid_bearing_level < 3 →
      s.horsehead_level < 3 → s.belt_level < 3 →
      regLookup (buildRtuRegisters m s obs now).2 3502 = some 3) := by
  refine ⟨?_, ?_, ?_⟩
  · intro hb
    have hany : anySensorReachLevel s 3 = true := by
      simp only [anySensorReachLevel, Bool.or_eq_true, decide_eq_true_eq]
      omega
    have hov := overallLevel_downgrade s hany helec hload
    rw [build_lookup_3502 m s obs now hlatch, hov]
    norm_num [clamp]
  · intro hh
    have hany : anySensorReachLevel s 3 = true := by
      simp only [anySensorReachLevel, Bool.or_eq_true, decide_eq_true_eq]
      omega
    have hov := overallLevel_downgrade s hany helec hload
    rw [build_lookup_3502 m s obs now hlatch, hov]
    norm_num [clamp]
  · intro hline h1 h2 h3 h4 h5 h6
    have hov := overallLevel_line_only s hline h1 h2 h3 h4 h5 h6 helec hload
    rw [build_lookup_3502 m s obs now hlatch, hov]
    norm_num [clamp]

/-- C9 witness: belt alone at level 3 is downgraded to 3502 = 2; line alone
at level 3 stays at 3502 = 3. -/
theorem c9_downgrade_sensor_set_witness :
    regLookup (buildRtuRegisters ⟨none, none, none, none⟩
      ⟨3, 0, 0, 0, 0, 0, 0, true, true, true, true⟩ none 0).2 3502 = some 2 ∧
    regLookup (buildRtuRegisters ⟨none, none, none, none⟩
      ⟨0, 0, 0, 0, 0, 0, 3, true, true, true, true⟩ none 0).2 3502 = some 3 :=
  ⟨(c9_downgrade_sensor_set ⟨none, none, none, none⟩
      ⟨3, 0, 0, 0, 0, 0, 0, true, true, true, true⟩ none 0
      (by decide) (by decide) (by decide)).1 (by decide),
   (c9_downgrade_sensor_set ⟨none, none, none, none⟩
      ⟨0, 0, 0, 0, 0, 0, 3, true, true, true, true⟩ none 0
      (by decide) (by decide) (by decide)).2.2 (by decide) (by decide)
      (by decide) (by decide) (by decide) (by decide) (by decide)⟩

end GatewayRTU
